import Mathlib

/-!
Verification development for the poultry code-search sync tool
(`src/lib/poultry.ts`). The TypeScript functions are embedded shallowly:
HTTP responses are explicit inputs, the `randomUUID()` stream is a
`Nat → String` generator, file writes are returned as a list of
(filename, content) pairs, and `process.exit(1)` is an `exited` result.
-/

set_option autoImplicit false

namespace Poultry

/-- Model of a JS `Date` value: `some ms` is the date `ms` milliseconds since
the epoch; `none` is the JS `Invalid Date` (as produced by `new Date(NaN)`). -/
abbrev JSDate := Option Int

/-- Decimal value of the leading digit run of a character list; `none` when
there is no leading digit (modelling `parseInt` returning `NaN`). -/
def digitsVal (cs : List Char) : Option Nat :=
  let ds := cs.takeWhile Char.isDigit
  if ds.isEmpty then none
  else some (ds.foldl (fun a c => a * 10 + (c.toNat - 48)) 0)

/-- Whitespace trimming on a character list, as JS `String.prototype.trim`
does before `parseInt` scans the string. -/
def jsTrim (cs : List Char) : List Char :=
  ((cs.dropWhile Char.isWhitespace).reverse.dropWhile Char.isWhitespace).reverse

/-- Model of JS `parseInt(s, 10)`: skip leading whitespace, read an optional
sign, then leading decimal digits; `none` models `NaN` (no digits found). -/
def parseIntJS (s : String) : Option Int :=
  match jsTrim s.data with
  | '-' :: t => (digitsVal t).map (fun n => -(n : Int))
  | '+' :: t => (digitsVal t).map (fun n => (n : Int))
  | t => (digitsVal t).map (fun n => (n : Int))

/-- Value of `new Date(parseInt(s, 10) * 1000)`: the string interpreted as
epoch seconds; an unparsable string yields the JS Invalid Date. -/
def dateFromEpochSecondsStr (s : String) : JSDate :=
  (parseIntJS s).map (fun n => n * 1000)

/-- Model of `path.replaceAll(slash regexp, '_')`: every slash replaced by an
underscore. -/
def replaceSlashes (s : String) : String :=
  String.mk (s.data.map (fun c => if c = '/' then '_' else c))

/-- Model of `randomUUID().replaceAll('-', '')`: every dash removed. -/
def stripDashes (s : String) : String :=
  String.mk (s.data.filter (fun c => c != '-'))

/-- Model of `Headers.get`: response headers as name/value pairs, names taken
already lowercased (the lookup of `fetch` is case-insensitive); an absent
header yields `none` (JS `null`). -/
def headerGet (headers : List (String × String)) (name : String) : Option String :=
  (headers.find? (fun p => p.1 == name)).map (fun p => p.2)

/-- Model of a `URL`: base plus the ordered `searchParams` entries. -/
structure URLModel where
  base : String
  params : List (String × String)
  deriving DecidableEq

/-- Helper of `URLSearchParams.set`: drop every entry named `k`. -/
def deleteParamKey (k : String) : List (String × String) → List (String × String)
  | [] => []
  | p :: t => if p.1 = k then deleteParamKey k t else p :: deleteParamKey k t

/-- Model of `URLSearchParams.set`: replace the first entry named `k` with
value `v` and drop any later entries named `k`; append when absent. -/
def setParamList (k v : String) : List (String × String) → List (String × String)
  | [] => [(k, v)]
  | p :: t => if p.1 = k then (k, v) :: deleteParamKey k t else p :: setParamList k v t

def setParam (u : URLModel) (k v : String) : URLModel :=
  { u with params := setParamList k v u.params }

/-- Model of `URLSearchParams.get`: the value of the first entry named `k`. -/
def getParam (u : URLModel) (k : String) : Option String :=
  (u.params.find? (fun p => p.1 == k)).map (fun p => p.2)

/-- Value of one search qualifier: `string | Array<string>` in the source. -/
inductive QualVal where
  | scalar (v : String)
  | arr (vs : List String)
  deriving DecidableEq

/-- The `qualifiers` object of `SearchURLOpts`, as its `Object.entries` list
(insertion order). -/
abbrev SearchQualifiers := List (String × QualVal)

/-- Query-token accumulation loop of `makeSearchURL`: push one `key:value`
token per scalar or per array element. -/
def qualTokens (qualifiers : SearchQualifiers) : List String :=
  qualifiers.foldl
    (fun q p =>
      match p.2 with
      | QualVal.arr vs => q ++ vs.map (fun v => p.1 ++ ":" ++ v)
      | QualVal.scalar v => q ++ [p.1 ++ ":" ++ v])
    []

/-- Embedding of `makeSearchURL` from `src/lib/poultry.ts`. -/
def makeSearchURL (qualifiers : SearchQualifiers) : URLModel :=
  let url : URLModel := { base := "https://api.github.com/search/code", params := [] }
  let q := qualTokens qualifiers
  let url := setParam url "q" (String.intercalate " " q)
  let url := setParam url "per_page" "100"
  let url := setParam url "page" "1"
  url

/-- Specification reading of the query tokens (C2): one `key:value` token per
scalar value or array element, in encounter order. -/
def specQualTokens (qualifiers : SearchQualifiers) : List String :=
  (qualifiers.map
    (fun p =>
      match p.2 with
      | QualVal.scalar v => [p.1 ++ ":" ++ v]
      | QualVal.arr vs => vs.map (fun v => p.1 ++ ":" ++ v))).flatten

/-- Specification-side count: one token per scalar value or array element. -/
def specQualCount (qualifiers : SearchQualifiers) : Nat :=
  (qualifiers.map
    (fun p =>
      match p.2 with
      | QualVal.scalar _ => 1
      | QualVal.arr vs => vs.length)).sum

/-- The `SyncSearchPageResult` error variants of the source. -/
inductive SyncSearchPageError where
  | unauthorized
  | rateLimited (reset : Option JSDate)
  deriving DecidableEq

/-- The `SyncSearchPageResult` union of the source. -/
inductive SyncSearchPageResult where
  | success (remaining total : Int)
  | error (e : SyncSearchPageError)
  deriving DecidableEq

/-- Outcome of `errorFromGitHubResponse`: `fatal` models `process.exit(1)`,
`err` a returned error object, `ok` the `undefined` fall-through. -/
inductive GHRespCheck where
  | fatal
  | err (e : SyncSearchPageError)
  | ok
  deriving DecidableEq

/-- Model of `String.prototype.startsWith`. -/
def strStartsWith (s pre : String) : Bool :=
  pre.data.isPrefixOf s.data

/-- The content-type test of `errorFromGitHubResponse`:
`response.headers.get('content-type')?.startsWith('application/json')`,
where a missing header gives `undefined` (falsy). -/
def contentTypeIsJson (headers : List (String × String)) : Bool :=
  match headerGet headers "content-type" with
  | some s => strStartsWith s "application/json"
  | none => false

/-- Embedding of `errorFromGitHubResponse` from `src/lib/poultry.ts`. The
`x-ratelimit-reset` header is consulted under JS truthiness: the empty
string is falsy, so it yields `reset: null` exactly like an absent header. -/
def errorFromGitHubResponse (status : Nat) (headers : List (String × String)) : GHRespCheck :=
  if contentTypeIsJson headers = false then .fatal
  else if status = 401 then .err .unauthorized
  else if status = 403 then
    .err (.rateLimited
      (match headerGet headers "x-ratelimit-reset" with
        | some s => if s = "" then none else some (dateFromEpochSecondsStr s)
        | none => none))
  else .ok

/-- Specification-side reset value for a 403 (amended C4): the header
interpreted as epoch seconds when present with a non-empty value, null when
the header is absent or empty. -/
def rateLimitResetOf (headers : List (String × String)) : Option JSDate :=
  match headerGet headers "x-ratelimit-reset" with
  | some s => if s = "" then none else some (dateFromEpochSecondsStr s)
  | none => none

structure RepoOwner where
  login : String
  deriving DecidableEq, Inhabited

structure Repository where
  name : String
  fork : Bool
  owner : RepoOwner
  deriving DecidableEq, Inhabited

/-- One matched item of the code-search response. The JSON also carries a
floating-point `score` field that no operation of the source reads; it is
omitted from the embedding. -/
structure SearchResultItem where
  name : String
  path : String
  repository : Repository
  deriving DecidableEq, Inhabited

/-- The `CodeSearchResponse` body of the source. -/
structure CodeSearchResponse where
  total_count : Nat
  incomplete_results : Bool
  items : List SearchResultItem
  deriving DecidableEq, Inhabited

/-- An HTTP response as the source consumes it: status, headers and the
parsed JSON body (`response.json()`). -/
structure HttpResponse (β : Type) where
  status : Nat
  headers : List (String × String)
  body : β

/-- Result of one API-calling step: `exited` models `process.exit`, `err` a
typed error result, `ok` the parsed success body. -/
inductive StepResult (α : Type) where
  | exited (code : Nat)
  | err (e : SyncSearchPageError)
  | ok (v : α)
  deriving DecidableEq

/-- Embedding of `codeSearch`: classify the HTTP response, then parse the
body as the success result. -/
def codeSearch (resp : HttpResponse CodeSearchResponse) : StepResult CodeSearchResponse :=
  match errorFromGitHubResponse resp.status resp.headers with
  | .fatal => .exited 1
  | .err e => .err e
  | .ok => .ok resp.body

/-- JSON value found under one alias of the graphql response: `object` is
null when the addressed object was not found; a found object carries an
optional `text` (absent when the object is not a Blob). -/
structure BlobHolder where
  text : Option String
  deriving DecidableEq

structure AliasedResult where
  object : Option BlobHolder
  deriving DecidableEq

/-- Body of the graphql response: `json.data` looked up by correlation key. -/
abbrev GraphQLData := String → AliasedResult

/-- Correlation key generated for the i-th item: `q` plus the i-th fresh UUID
with its dashes removed. `uuidGen` stands for the stream of `randomUUID()`
results of one `retrieveObjectContents` call. -/
def qKey (uuidGen : Nat → String) (i : Nat) : String :=
  "q" ++ stripDashes (uuidGen i)

/-- Embedding of `graphQueryForObjectText` from `src/lib/poultry.ts`. -/
def graphQueryForObjectText (key owner repo path : String) : String :=
  key ++ ": repository(owner: \"" ++ owner ++ "\", name: \"" ++ repo ++ "\") \x7b\n"
    ++ "    object(expression: \"HEAD:" ++ path ++ "\") \x7b\n"
    ++ "        ... on Blob \x7b\n"
    ++ "            text\n"
    ++ "        \x7d\n"
    ++ "    \x7d\n"
    ++ "\x7d"

/-- Key/fragment generation loop of `retrieveObjectContents`: for the i-th
item, push its correlation key onto `qKeys` and its aliased query fragment
onto `qParts`. Returns `(qKeys, qParts)`. -/
def buildBatch (uuidGen : Nat → String) : Nat → List SearchResultItem → List String × List String
  | _, [] => ([], [])
  | i, item :: rest =>
    let key := qKey uuidGen i
    let built := buildBatch uuidGen (i + 1) rest
    (key :: built.1,
     graphQueryForObjectText key item.repository.owner.login item.repository.name item.path
       :: built.2)

/-- Per-key extraction `json.data[key].object?.text || null`: the empty
string is falsy in JS, so empty blob text is coerced to null. -/
def extractText (r : AliasedResult) : Option String :=
  match r.object with
  | none => none
  | some blob =>
    match blob.text with
    | none => none
    | some s => if s = "" then none else some s

/-- What one `retrieveObjectContents` call does: the composite query document
it sends, and the result computed from the graphql HTTP response. -/
structure BatchFetchOutcome where
  requestQuery : String
  result : StepResult (List (Option String))
  deriving DecidableEq

/-- Embedding of `retrieveObjectContents` from `src/lib/poultry.ts`: build one
aliased fragment per item, send them all in one request, classify the
response, then walk the correlation keys in original order. -/
def retrieveObjectContents (uuidGen : Nat → String) (items : List SearchResultItem)
    (resp : HttpResponse GraphQLData) : BatchFetchOutcome :=
  let built := buildBatch uuidGen 0 items
  { requestQuery := "query \x7b\n" ++ String.intercalate "\n" built.2 ++ "\n\x7d",
    result :=
      match errorFromGitHubResponse resp.status resp.headers with
      | .fatal => .exited 1
      | .err e => .err e
      | .ok => .ok (built.1.map (fun key => extractText (resp.body key))) }

/-- Flattened filename of `syncToOutdir`:
`owner_repoName_path-with-slashes-replaced-by-underscores`. -/
def flatFilename (item : SearchResultItem) : String :=
  item.repository.owner.login ++ "_" ++ item.repository.name ++ "_"
    ++ replaceSlashes item.path

/-- One iteration of the write loop: `if (!objectContent) continue` skips
null, undefined and the empty string (JS falsiness); any other content is
written verbatim under the flattened filename. -/
def writeForIndex (item : SearchResultItem) (content : Option String) : Option (String × String) :=
  match content with
  | none => none
  | some s => if s = "" then none else some (flatFilename item, s)

/-- Embedding of the write loop of `syncToOutdir`: the (filename, content)
pairs written inside the output directory, in loop order. `contents[i]`
past the end of the contents list is `undefined`, hence skipped. -/
def syncToOutdir (items : List SearchResultItem) (contents : List (Option String)) :
    List (String × String) :=
  match items, contents with
  | [], _ => []
  | _ :: restItems, [] => syncToOutdir restItems []
  | item :: restItems, c :: restContents =>
    match writeForIndex item c with
    | some w => w :: syncToOutdir restItems restContents
    | none => syncToOutdir restItems restContents

/-- The `SyncSearchPageOpts` configuration bundle of the source; `page`
models the optional `page?: number` field. -/
structure SyncSearchPageOpts where
  ghToken : String
  outdir : String
  url : URLModel
  page : Option Int

/-- External calls `syncSearchPage` can make, in order of occurrence. -/
inductive ExtCall where
  | search
  | contentFetch
  | write
  deriving DecidableEq

/-- Environment one page sync runs against: the two HTTP responses the remote
ends would return, and the stream of fresh UUIDs. -/
structure SyncEnv where
  searchResp : HttpResponse CodeSearchResponse
  graphqlResp : HttpResponse GraphQLData
  uuidGen : Nat → String

/-- Result of running the whole process step: `exited` models
`process.exit`. -/
inductive ProcResult (α : Type) where
  | exited (code : Nat)
  | value (v : α)
  deriving DecidableEq

/-- URL actually requested:
`if (syncOpts.page) syncOpts.url.searchParams.set('page', '' + syncOpts.page)`.
JS truthiness makes `page: 0` leave the URL untouched. -/
def requestURLOf (opts : SyncSearchPageOpts) : URLModel :=
  match opts.page with
  | some p => if p = 0 then opts.url else setParam opts.url "page" (toString p)
  | none => opts.url

/-- The current page as the success computation reads it:
`syncOpts.page || 1` (0 and undefined are falsy). -/
def effectivePage : Option Int → Int
  | none => 1
  | some p => if p = 0 then 1 else p

/-- Observable outcome of one `syncSearchPage` run: the returned (or fatal)
result, the external calls made, the URL requested, and the files written. -/
structure SyncOutcome where
  result : ProcResult SyncSearchPageResult
  calls : List ExtCall
  requestURL : URLModel
  writes : List (String × String)
  deriving DecidableEq

/-- Embedding of `syncSearchPage` from `src/lib/poultry.ts`: mutate the page
parameter when a truthy page is supplied, call the search client, the
content batch fetcher and the writer in order, short-circuiting on the
first error, and report `ceil(total_count / 100)` total pages. -/
def syncSearchPage (opts : SyncSearchPageOpts) (env : SyncEnv) : SyncOutcome :=
  let url := requestURLOf opts
  match codeSearch env.searchResp with
  | .exited c => { result := .exited c, calls := [.search], requestURL := url, writes := [] }
  | .err e =>
    { result := .value (.error e), calls := [.search], requestURL := url, writes := [] }
  | .ok searchResponse =>
    let fetched := retrieveObjectContents env.uuidGen searchResponse.items env.graphqlResp
    match fetched.result with
    | .exited c =>
      { result := .exited c, calls := [.search, .contentFetch], requestURL := url, writes := [] }
    | .err e =>
      { result := .value (.error e), calls := [.search, .contentFetch], requestURL := url,
        writes := [] }
    | .ok contents =>
      let pageCount : Int := ((searchResponse.total_count + 99) / 100 : Nat)
      { result := .value (.success (pageCount - effectivePage opts.page) pageCount),
        calls := [.search, .contentFetch, .write],
        requestURL := url,
        writes := syncToOutdir searchResponse.items contents }

/-! Helper lemmas shared by the claim theorems. -/

theorem qualTokens_go (l : SearchQualifiers) (acc : List String) :
    List.foldl
      (fun q p =>
        match p.2 with
        | QualVal.arr vs => q ++ vs.map (fun v => p.1 ++ ":" ++ v)
        | QualVal.scalar v => q ++ [p.1 ++ ":" ++ v])
      acc l
    = acc ++ specQualTokens l := by
  induction l generalizing acc with
  | nil => simp [specQualTokens]
  | cons p t ih => cases hp : p.2 <;> simp [specQualTokens, ih, hp]

theorem qualTokens_eq (l : SearchQualifiers) : qualTokens l = specQualTokens l := by
  simpa [qualTokens] using qualTokens_go l []

theorem specQualTokens_length (l : SearchQualifiers) :
    (specQualTokens l).length = specQualCount l := by
  induction l with
  | nil => rfl
  | cons p t ih =>
    have ih' : (specQualTokens t).length = specQualCount t := ih
    simp [specQualTokens, specQualCount] at ih' ⊢
    cases hp : p.2 <;> simp [hp] <;> omega

theorem find?_deleteParamKey (k k' : String) (hne : k' ≠ k) (l : List (String × String)) :
    (deleteParamKey k l).find? (fun p => p.1 == k') = l.find? (fun p => p.1 == k') := by
  induction l with
  | nil => rfl
  | cons p t ih =>
    by_cases hp : p.1 = k
    · have hp' : (p.1 == k') = false := by
        simp only [beq_eq_false_iff_ne]
        rw [hp]
        exact fun h => hne h.symm
      rw [deleteParamKey]
      simp only [if_pos hp]
      rw [ih, List.find?_cons, hp']
    · rw [deleteParamKey]
      simp only [if_neg hp]
      rw [List.find?_cons, List.find?_cons]
      cases hpk : (p.1 == k')
      · exact ih
      · rfl

theorem find?_setParamList_self (k v : String) (l : List (String × String)) :
    (setParamList k v l).find? (fun p => p.1 == k) = some (k, v) := by
  induction l with
  | nil => simp [setParamList, List.find?_cons]
  | cons p t ih =>
    by_cases hp : p.1 = k
    · rw [setParamList]
      simp only [if_pos hp]
      rw [List.find?_cons]
      simp
    · have hp' : (p.1 == k) = false := by simpa using hp
      rw [setParamList]
      simp only [if_neg hp]
      rw [List.find?_cons, hp']
      exact ih

theorem find?_setParamList_ne (k v k' : String) (hne : k' ≠ k) (l : List (String × String)) :
    (setParamList k v l).find? (fun p => p.1 == k') = l.find? (fun p => p.1 == k') := by
  have hk : (k == k') = false := by
    simp only [beq_eq_false_iff_ne]
    exact fun h => hne h.symm
  induction l with
  | nil =>
    rw [setParamList, List.find?_cons, hk]
  | cons p t ih =>
    by_cases hp : p.1 = k
    · have hp' : (p.1 == k') = false := by
        rw [hp]
        exact hk
      rw [setParamList]
      simp only [if_pos hp]
      rw [List.find?_cons, hk, find?_deleteParamKey k k' hne t, List.find?_cons, hp']
    · rw [setParamList]
      simp only [if_neg hp]
      rw [List.find?_cons, List.find?_cons]
      cases hpk : (p.1 == k')
      · exact ih
      · rfl

theorem getParam_setParam (u : URLModel) (k v : String) :
    getParam (setParam u k v) k = some v := by
  simp [getParam, setParam, find?_setParamList_self]

theorem getParam_setParam_ne (u : URLModel) (k v k' : String) (hne : k' ≠ k) :
    getParam (setParam u k v) k' = getParam u k' := by
  simp [getParam, setParam, find?_setParamList_ne k v k' hne]

theorem codeSearch_err_iff (resp : HttpResponse CodeSearchResponse) (e : SyncSearchPageError) :
    codeSearch resp = .err e ↔ errorFromGitHubResponse resp.status resp.headers = .err e := by
  unfold codeSearch
  constructor
  · intro h
    split at h <;> simp_all
  · intro h
    rw [h]

theorem codeSearch_ok_iff (resp : HttpResponse CodeSearchResponse) (sr : CodeSearchResponse) :
    codeSearch resp = .ok sr
      ↔ errorFromGitHubResponse resp.status resp.headers = .ok ∧ sr = resp.body := by
  unfold codeSearch
  constructor
  · intro h
    split at h <;> simp_all
  · intro h
    rw [h.1, h.2]

theorem retrieveObjectContents_ok (uuidGen : Nat → String) (items : List SearchResultItem)
    (resp : HttpResponse GraphQLData) (contents : List (Option String))
    (h : (retrieveObjectContents uuidGen items resp).result = .ok contents) :
    contents = (buildBatch uuidGen 0 items).1.map (fun key => extractText (resp.body key)) := by
  unfold retrieveObjectContents at h
  simp only at h
  split at h <;> simp_all

theorem buildBatch_fst_length (g : Nat → String) (i : Nat) (items : List SearchResultItem) :
    (buildBatch g i items).1.length = items.length := by
  induction items generalizing i with
  | nil => rfl
  | cons item rest ih => simp [buildBatch, ih]

theorem buildBatch_snd_length (g : Nat → String) (i : Nat) (items : List SearchResultItem) :
    (buildBatch g i items).2.length = items.length := by
  induction items generalizing i with
  | nil => rfl
  | cons item rest ih => simp [buildBatch, ih]

theorem buildBatch_fst_getD (g : Nat → String) (i j : Nat) (items : List SearchResultItem)
    (h : j < items.length) :
    (buildBatch g i items).1.getD j "" = qKey g (i + j) := by
  induction items generalizing i j with
  | nil => simp at h
  | cons item rest ih =>
    cases j with
    | zero => simp [buildBatch]
    | succ j =>
      have hj : j < rest.length := by simpa using h
      have := ih (i + 1) j hj
      simp only [buildBatch, List.getD_cons_succ]
      rw [this]
      congr 1
      omega

theorem buildBatch_snd_getD (g : Nat → String) (i j : Nat) (items : List SearchResultItem)
    (h : j < items.length) :
    (buildBatch g i items).2.getD j ""
      = graphQueryForObjectText (qKey g (i + j))
          (items.getD j default).repository.owner.login
          (items.getD j default).repository.name
          (items.getD j default).path := by
  induction items generalizing i j with
  | nil => simp at h
  | cons item rest ih =>
    cases j with
    | zero => simp [buildBatch]
    | succ j =>
      have hj : j < rest.length := by simpa using h
      have := ih (i + 1) j hj
      simp only [buildBatch, List.getD_cons_succ]
      rw [this]
      congr 2
      omega

theorem syncToOutdir_eq_filterMap (items : List SearchResultItem)
    (contents : List (Option String)) :
    syncToOutdir items contents
      = (items.zip contents).filterMap (fun p => writeForIndex p.1 p.2) := by
  induction items generalizing contents with
  | nil => simp [syncToOutdir]
  | cons item rest ih =>
    cases contents with
    | nil =>
      have : syncToOutdir rest [] = [] := by
        rw [ih]
        simp
      simp [syncToOutdir, this]
    | cons c cs =>
      cases hw : writeForIndex item c <;> simp [syncToOutdir, hw, ih]

theorem ceilDiv100_le_iff (n m : Nat) : (n + 99) / 100 ≤ m ↔ n ≤ 100 * m := by
  omega

theorem getD_map_of_lt {α β : Type} (f : α → β) (l : List α) (i : Nat) (d : α) (db : β)
    (h : i < l.length) : (l.map f).getD i db = f (l.getD i d) := by
  induction l generalizing i with
  | nil => simp at h
  | cons a t ih =>
    cases i with
    | zero => rfl
    | succ i =>
      have hi : i < t.length := by simpa using h
      simpa using ih i hi

theorem retrieveObjectContents_length (uuidGen : Nat → String)
    (items : List SearchResultItem) (resp : HttpResponse GraphQLData)
    (contents : List (Option String))
    (h : (retrieveObjectContents uuidGen items resp).result = .ok contents) :
    contents.length = items.length := by
  rw [retrieveObjectContents_ok uuidGen items resp contents h]
  simp [buildBatch_fst_length]

theorem retrieveObjectContents_getD (uuidGen : Nat → String)
    (items : List SearchResultItem) (resp : HttpResponse GraphQLData)
    (contents : List (Option String)) (i : Nat)
    (h : (retrieveObjectContents uuidGen items resp).result = .ok contents)
    (hi : i < items.length) :
    contents.getD i none = extractText (resp.body (qKey uuidGen i)) := by
  rw [retrieveObjectContents_ok uuidGen items resp contents h]
  have hik : i < (buildBatch uuidGen 0 items).1.length := by
    rw [buildBatch_fst_length]
    exact hi
  rw [getD_map_of_lt _ _ i "" _ hik, buildBatch_fst_getD uuidGen 0 i items hi]
  simp

/-! Concrete fixtures used by witnesses and counterexamples. -/

def wItem : SearchResultItem :=
  { name := "c.sql", path := "a/b/c.sql",
    repository := { name := "r", fork := false, owner := { login := "o" } } }

def wItem2 : SearchResultItem :=
  { name := "d.sql", path := "x/d.sql",
    repository := { name := "r2", fork := true, owner := { login := "o2" } } }

def wJsonHeaders : List (String × String) := [("content-type", "application/json")]

def wResetHeaders : List (String × String) :=
  [("content-type", "application/json"), ("x-ratelimit-reset", "1700000000")]

def wSearchBody : CodeSearchResponse :=
  { total_count := 500, incomplete_results := false, items := [] }

def wSearchOk : HttpResponse CodeSearchResponse :=
  { status := 200, headers := wJsonHeaders, body := wSearchBody }

def wSearch401 : HttpResponse CodeSearchResponse :=
  { status := 401, headers := wJsonHeaders, body := wSearchBody }

def wGraphqlOk : HttpResponse GraphQLData :=
  { status := 200, headers := wJsonHeaders, body := fun _ => { object := none } }

def wGraphql401 : HttpResponse GraphQLData :=
  { status := 401, headers := wJsonHeaders, body := fun _ => { object := none } }

def wUrl : URLModel :=
  { base := "https://api.github.com/search/code",
    params := [("q", "language:sql"), ("per_page", "100"), ("page", "1")] }

def wGen : Nat → String := fun _ => "u"

def wOpts : SyncSearchPageOpts := { ghToken := "t", outdir := "d", url := wUrl, page := none }

def wEnvSearch401 : SyncEnv :=
  { searchResp := wSearch401, graphqlResp := wGraphqlOk, uuidGen := wGen }

def wEnvFetch401 : SyncEnv :=
  { searchResp := wSearchOk, graphqlResp := wGraphql401, uuidGen := wGen }

def wEnvOk : SyncEnv :=
  { searchResp := wSearchOk, graphqlResp := wGraphqlOk, uuidGen := wGen }

def cexOptsPageZero : SyncSearchPageOpts :=
  { ghToken := "t", outdir := "d", url := wUrl, page := some 0 }

def wOptsPage2 : SyncSearchPageOpts :=
  { ghToken := "t", outdir := "d", url := wUrl, page := some 2 }

/-- UUID stream for the positional-correlation witness: distinct values
"u", "uu", "uuu", ... -/
def wGen2 : Nat → String := fun i => String.mk (List.replicate (i + 1) 'u')

/-- Graphql data for the positional-correlation witness: the key of item 0
resolves to a blob with text "hello", every other key to a missing object. -/
def wData2 : GraphQLData :=
  fun k => if k = "qu" then { object := some { text := some "hello" } } else { object := none }

def wGraphqlData2 : HttpResponse GraphQLData :=
  { status := 200, headers := wJsonHeaders, body := wData2 }

/-- Graphql data for the empty-blob-text witness: every key resolves to a
blob whose text is the empty string. -/
def wDataEmptyText : GraphQLData := fun _ => { object := some { text := some "" } }

def wGraphqlEmptyText : HttpResponse GraphQLData :=
  { status := 200, headers := wJsonHeaders, body := wDataEmptyText }

def wHtmlHeaders : List (String × String) := [("content-type", "text/html")]

def cexHeadersEmptyReset : List (String × String) :=
  [("content-type", "application/json"), ("x-ratelimit-reset", "")]

/-! Claim theorems. -/

/-- C1: if the Search Client step of `syncSearchPage` classifies its HTTP
response as a typed error, `syncSearchPage` returns exactly that error and
neither the Content Batch Fetcher nor the Sync Writer is invoked (the calls
list is just the search call and nothing is written); if the search step
succeeds and the Content Batch Fetcher step classifies its HTTP response
as a typed error, `syncSearchPage` returns exactly that error and the Sync
Writer is not invoked. -/
theorem syncSearchPage_shortCircuits (opts : SyncSearchPageOpts) (env : SyncEnv)
    (e : SyncSearchPageError) :
    (errorFromGitHubResponse env.searchResp.status env.searchResp.headers = .err e →
      syncSearchPage opts env
        = { result := .value (.error e), calls := [.search],
            requestURL := requestURLOf opts, writes := [] })
    ∧ (errorFromGitHubResponse env.searchResp.status env.searchResp.headers = .ok →
        errorFromGitHubResponse env.graphqlResp.status env.graphqlResp.headers = .err e →
        syncSearchPage opts env
          = { result := .value (.error e), calls := [.search, .contentFetch],
              requestURL := requestURLOf opts, writes := [] }) := by
  constructor
  · intro h1
    simp [syncSearchPage, codeSearch, h1]
  · intro h1 h2
    simp [syncSearchPage, codeSearch, retrieveObjectContents, h1, h2]

/-- Witness for C1: concrete 401 search response, and concrete 401 graphql
response after a successful search. -/
theorem syncSearchPage_shortCircuits_witness :
    syncSearchPage wOpts wEnvSearch401
      = { result := .value (.error .unauthorized), calls := [.search],
          requestURL := requestURLOf wOpts, writes := [] }
    ∧ syncSearchPage wOpts wEnvFetch401
      = { result := .value (.error .unauthorized), calls := [.search, .contentFetch],
          requestURL := requestURLOf wOpts, writes := [] } :=
  ⟨(syncSearchPage_shortCircuits wOpts wEnvSearch401 .unauthorized).1 (by decide),
   (syncSearchPage_shortCircuits wOpts wEnvFetch401 .unauthorized).2 (by decide) (by decide)⟩

/-- C2: for every qualifier mapping with at least one entry, the built `q`
query string is exactly the `key:value` tokens — one per scalar value or per
array element, in encounter order — joined by single spaces, and the URL
carries `per_page=100` and `page=1`. -/
theorem makeSearchURL_query (qualifiers : SearchQualifiers) (hne : qualifiers ≠ []) :
    getParam (makeSearchURL qualifiers) "q"
        = some (String.intercalate " " (specQualTokens qualifiers))
    ∧ getParam (makeSearchURL qualifiers) "per_page" = some "100"
    ∧ getParam (makeSearchURL qualifiers) "page" = some "1"
    ∧ (specQualTokens qualifiers).length = specQualCount qualifiers := by
  refine ⟨?_, ?_, ?_, specQualTokens_length qualifiers⟩
  · show getParam
      (setParam (setParam (setParam { base := "https://api.github.com/search/code", params := [] }
        "q" (String.intercalate " " (qualTokens qualifiers))) "per_page" "100") "page" "1") "q"
      = some (String.intercalate " " (specQualTokens qualifiers))
    rw [getParam_setParam_ne _ _ _ _ (by decide), getParam_setParam_ne _ _ _ _ (by decide),
      getParam_setParam, qualTokens_eq]
  · show getParam
      (setParam (setParam (setParam { base := "https://api.github.com/search/code", params := [] }
        "q" (String.intercalate " " (qualTokens qualifiers))) "per_page" "100") "page" "1") "per_page"
      = some "100"
    rw [getParam_setParam_ne _ _ _ _ (by decide), getParam_setParam]
  · show getParam
      (setParam (setParam (setParam { base := "https://api.github.com/search/code", params := [] }
        "q" (String.intercalate " " (qualTokens qualifiers))) "per_page" "100") "page" "1") "page"
      = some "1"
    rw [getParam_setParam]

/-- Witness for C2 at a two-qualifier mapping mixing a scalar and an array. -/
theorem makeSearchURL_query_witness :
    getParam (makeSearchURL [("extension", QualVal.scalar "sql"),
        ("user", QualVal.arr ["a", "b"])]) "q"
        = some (String.intercalate " " (specQualTokens [("extension", QualVal.scalar "sql"),
            ("user", QualVal.arr ["a", "b"])]))
    ∧ getParam (makeSearchURL [("extension", QualVal.scalar "sql"),
        ("user", QualVal.arr ["a", "b"])]) "per_page" = some "100"
    ∧ getParam (makeSearchURL [("extension", QualVal.scalar "sql"),
        ("user", QualVal.arr ["a", "b"])]) "page" = some "1"
    ∧ (specQualTokens [("extension", QualVal.scalar "sql"),
        ("user", QualVal.arr ["a", "b"])]).length
        = specQualCount [("extension", QualVal.scalar "sql"), ("user", QualVal.arr ["a", "b"])] :=
  makeSearchURL_query [("extension", QualVal.scalar "sql"), ("user", QualVal.arr ["a", "b"])]
    (by decide)

/-- Counterexample to C3 as stated: with the explicit page number 0 supplied
and `total_count = 500`, the code returns `remaining = 4` — `total - 1`,
because JS `syncOpts.page || 1` treats 0 as falsy — while the claim's
"total minus the current page number" requires `5 - 0 = 5`. -/
theorem syncSearchPage_pageCounts_cex :
    cexOptsPageZero.page = some 0
    ∧ (syncSearchPage cexOptsPageZero wEnvOk).result = .value (.success 4 5)
    ∧ ¬ ((4 : Int) = 5 - 0) :=
  ⟨by decide, by decide, by decide⟩

/-- C3 (amended): on success the returned total is `ceil(total_count / 100)`
— characterized as the least natural `m` with `total_count ≤ 100 * m` — and
the returned remaining count is `total - p` when a nonzero page `p` was
supplied and `total - 1` when the page is unsupplied or 0 (JS `page || 1`). -/
theorem syncSearchPage_pageCounts (opts : SyncSearchPageOpts) (env : SyncEnv)
    (rem tot : Int)
    (h : (syncSearchPage opts env).result = .value (.success rem tot)) :
    (∀ m : Nat, tot ≤ (m : Int) ↔ env.searchResp.body.total_count ≤ 100 * m)
    ∧ rem = tot - effectivePage opts.page
    ∧ (opts.page = none → rem = tot - 1)
    ∧ (opts.page = some 0 → rem = tot - 1)
    ∧ (∀ p : Int, opts.page = some p → p ≠ 0 → rem = tot - p) := by
  unfold syncSearchPage at h
  rcases hcs : codeSearch env.searchResp with c | e | sr <;> rw [hcs] at h
  · simp at h
  · simp at h
  · rcases hro : (retrieveObjectContents env.uuidGen sr.items env.graphqlResp).result
      with c | e | contents <;> simp only [hro] at h
    · simp at h
    · simp at h
    · have hsr : sr = env.searchResp.body := ((codeSearch_ok_iff env.searchResp sr).mp hcs).2
      simp at h
      obtain ⟨hrem, htot⟩ := h
      refine ⟨?_, ?_, ?_, ?_, ?_⟩
      · intro m
        rw [← htot, ← hsr]
        omega
      · rw [← hrem, ← htot]
      · intro hp
        rw [← hrem, ← htot, hp]
        simp [effectivePage]
      · intro hp
        rw [← hrem, ← htot, hp]
        simp [effectivePage]
      · intro p hp hpz
        rw [← hrem, ← htot, hp]
        simp [effectivePage, hpz]

/-- Witness for C3 (amended) at `total_count = 500` and supplied page 2. -/
theorem syncSearchPage_pageCounts_witness :
    (∀ m : Nat, (5 : Int) ≤ (m : Int) ↔ wEnvOk.searchResp.body.total_count ≤ 100 * m)
    ∧ (3 : Int) = 5 - effectivePage wOptsPage2.page
    ∧ (wOptsPage2.page = none → (3 : Int) = 5 - 1)
    ∧ (wOptsPage2.page = some 0 → (3 : Int) = 5 - 1)
    ∧ (∀ p : Int, wOptsPage2.page = some p → p ≠ 0 → (3 : Int) = 5 - p) :=
  syncSearchPage_pageCounts wOptsPage2 wEnvOk 3 5 (by decide)

/-- Counterexample to C4 as stated: with the `x-ratelimit-reset` header
present but holding the empty string, the code returns `reset: null` (the
empty string is falsy in JS), not the Date obtained by interpreting the
header value as epoch seconds. -/
theorem errorFromGitHubResponse_emptyReset_cex :
    headerGet cexHeadersEmptyReset "x-ratelimit-reset" = some ""
    ∧ errorFromGitHubResponse 403 cexHeadersEmptyReset = .err (.rateLimited none)
    ∧ (none : Option JSDate) ≠ some (dateFromEpochSecondsStr "") :=
  ⟨by decide, by decide, by decide⟩

/-- C4 (amended): for responses with a JSON content-type, status 401 is
classified `unauthorized`; status 403 is classified `rate-limited` with
reset `rateLimitResetOf headers` — the header value interpreted as epoch
seconds when present with a non-empty value, and null when the header is
absent or empty (JS truthiness); any other status yields no error and the
parsed body is the success result. -/
theorem errorFromGitHubResponse_classification (status : Nat)
    (headers : List (String × String)) (hjson : contentTypeIsJson headers = true) :
    (status = 401 → errorFromGitHubResponse status headers = .err .unauthorized)
    ∧ (status = 403 →
        errorFromGitHubResponse status headers = .err (.rateLimited (rateLimitResetOf headers)))
    ∧ (∀ s, headerGet headers "x-ratelimit-reset" = some s → s ≠ "" →
        rateLimitResetOf headers = some (dateFromEpochSecondsStr s))
    ∧ (headerGet headers "x-ratelimit-reset" = none → rateLimitResetOf headers = none)
    ∧ (∀ s, headerGet headers "x-ratelimit-reset" = some s → s = "" →
        rateLimitResetOf headers = none)
    ∧ (status ≠ 401 → status ≠ 403 →
        errorFromGitHubResponse status headers = .ok
        ∧ ∀ body : CodeSearchResponse,
            codeSearch { status := status, headers := headers, body := body } = .ok body) := by
  refine ⟨?_, ?_, ?_, ?_, ?_, ?_⟩
  · intro h
    simp [errorFromGitHubResponse, hjson, h]
  · intro h
    simp [errorFromGitHubResponse, hjson, h, rateLimitResetOf]
  · intro s hs hsne
    simp [rateLimitResetOf, hs, hsne]
  · intro hs
    simp [rateLimitResetOf, hs]
  · intro s hs hse
    simp [rateLimitResetOf, hs, hse]
  · intro h1 h2
    have hok : errorFromGitHubResponse status headers = .ok := by
      simp [errorFromGitHubResponse, hjson, h1, h2]
    exact ⟨hok, fun body => by simp [codeSearch, hok]⟩

/-- Witness for C4 (amended): 401, 403 with reset header `1700000000`
(which is the epoch-millisecond date 1700000000000), and 200. -/
theorem errorFromGitHubResponse_classification_witness :
    errorFromGitHubResponse 401 wJsonHeaders = .err .unauthorized
    ∧ errorFromGitHubResponse 403 wResetHeaders
        = .err (.rateLimited (rateLimitResetOf wResetHeaders))
    ∧ rateLimitResetOf wResetHeaders = some (some 1700000000000)
    ∧ errorFromGitHubResponse 200 wJsonHeaders = .ok :=
  ⟨(errorFromGitHubResponse_classification 401 wJsonHeaders (by decide)).1 rfl,
   (errorFromGitHubResponse_classification 403 wResetHeaders (by decide)).2.1 rfl,
   (errorFromGitHubResponse_classification 403 wResetHeaders (by decide)).2.2.1
     "1700000000" (by decide) (by decide),
   ((errorFromGitHubResponse_classification 200 wJsonHeaders (by decide)).2.2.2.2.2
     (by decide) (by decide)).1⟩

/-- Counterexample to C5 as stated: for the same-length pair `[wItem]`,
`[some ""]` the content is non-null, yet the writer writes no file at all —
JS `if (!objectContent) continue` also skips the empty string. -/
theorem syncToOutdir_emptyContent_cex :
    syncToOutdir [wItem] [some ""] = []
    ∧ (some "" : Option String) ≠ none
    ∧ ([] : List (String × String)) ≠ [(flatFilename wItem, "")] :=
  ⟨by decide, by decide, by decide⟩

/-- C5 (amended): for every same-length pair of items and contents, the
writer writes exactly one file per item whose content is non-null and
non-empty — named `owner_repoName_path-with-slashes-as-underscores` and
holding the content verbatim — and writes no file for null (or empty)
contents; in particular owner `o`, repo `r`, path `a/b/c.sql`, content `X`
yields exactly the file `o_r_a_b_c.sql` containing `X`. -/
theorem syncToOutdir_writes (items : List SearchResultItem)
    (contents : List (Option String)) (hlen : items.length = contents.length) :
    syncToOutdir items contents
        = (items.zip contents).filterMap (fun p => writeForIndex p.1 p.2)
    ∧ (∀ item : SearchResultItem, ∀ s : String, s ≠ "" →
        writeForIndex item (some s) = some (flatFilename item, s))
    ∧ (∀ item : SearchResultItem, writeForIndex item none = none)
    ∧ (∀ item : SearchResultItem, writeForIndex item (some "") = none)
    ∧ flatFilename wItem = "o_r_a_b_c.sql"
    ∧ syncToOutdir [wItem] [some "X"] = [("o_r_a_b_c.sql", "X")] := by
  refine ⟨syncToOutdir_eq_filterMap items contents, ?_, fun item => rfl, ?_, by decide, by decide⟩
  · intro item s hs
    simp [writeForIndex, hs]
  · intro item
    simp [writeForIndex]

/-- Witness for C5 (amended) at the single-item pair from the round-trip
example. -/
theorem syncToOutdir_writes_witness :
    syncToOutdir [wItem] [some "X"]
        = ([wItem].zip [some "X"]).filterMap (fun p => writeForIndex p.1 p.2)
    ∧ (∀ item : SearchResultItem, ∀ s : String, s ≠ "" →
        writeForIndex item (some s) = some (flatFilename item, s))
    ∧ (∀ item : SearchResultItem, writeForIndex item none = none)
    ∧ (∀ item : SearchResultItem, writeForIndex item (some "") = none)
    ∧ flatFilename wItem = "o_r_a_b_c.sql"
    ∧ syncToOutdir [wItem] [some "X"] = [("o_r_a_b_c.sql", "X")] :=
  syncToOutdir_writes [wItem] [some "X"] (by decide)

/-- C6: on success the content list has the same length as the item list and
is positionally correlated: the i-th content entry is the text extracted
(via `extractText`) from the aliased result of the i-th generated
correlation key, and the i-th query fragment of the batch document was
built from that key and the i-th item's owner, repository name and path;
an aliased result with no object yields null. -/
theorem retrieveObjectContents_positional (uuidGen : Nat → String)
    (items : List SearchResultItem) (resp : HttpResponse GraphQLData)
    (contents : List (Option String))
    (h : (retrieveObjectContents uuidGen items resp).result = .ok contents) :
    contents.length = items.length
    ∧ (∀ i, i < items.length →
        contents.getD i none = extractText (resp.body (qKey uuidGen i)))
    ∧ (buildBatch uuidGen 0 items).2.length = items.length
    ∧ (∀ i, i < items.length →
        (buildBatch uuidGen 0 items).2.getD i ""
          = graphQueryForObjectText (qKey uuidGen i)
              (items.getD i default).repository.owner.login
              (items.getD i default).repository.name
              (items.getD i default).path)
    ∧ (∀ r : AliasedResult, r.object = none → extractText r = none) := by
  refine ⟨retrieveObjectContents_length uuidGen items resp contents h,
    fun i hi => retrieveObjectContents_getD uuidGen items resp contents i h hi,
    buildBatch_snd_length uuidGen 0 items, ?_, ?_⟩
  · intro i hi
    rw [buildBatch_snd_getD uuidGen 0 i items hi]
    simp
  · intro r hr
    simp [extractText, hr]

/-- Witness for C6 at two items: item 0's key resolves to text "hello",
item 1's key to a missing object, giving contents `[some "hello", none]`. -/
theorem retrieveObjectContents_positional_witness :
    ([some "hello", none] : List (Option String)).length = [wItem, wItem2].length
    ∧ (∀ i, i < [wItem, wItem2].length →
        ([some "hello", none] : List (Option String)).getD i none
          = extractText (wGraphqlData2.body (qKey wGen2 i)))
    ∧ (buildBatch wGen2 0 [wItem, wItem2]).2.length = [wItem, wItem2].length
    ∧ (∀ i, i < [wItem, wItem2].length →
        (buildBatch wGen2 0 [wItem, wItem2]).2.getD i ""
          = graphQueryForObjectText (qKey wGen2 i)
              ([wItem, wItem2].getD i default).repository.owner.login
              ([wItem, wItem2].getD i default).repository.name
              ([wItem, wItem2].getD i default).path)
    ∧ (∀ r : AliasedResult, r.object = none → extractText r = none) :=
  retrieveObjectContents_positional wGen2 [wItem, wItem2] wGraphqlData2
    [some "hello", none] (by decide)

/-- C7: for an empty matched-item list the batch request is still issued —
the composite query document with zero fragments is built, and the outcome
is still whatever the classification of the batch call's HTTP response
dictates — and on a successful response the returned content list is
empty. -/
theorem retrieveObjectContents_emptyItems (uuidGen : Nat → String)
    (resp : HttpResponse GraphQLData) :
    (retrieveObjectContents uuidGen [] resp).requestQuery = "query \x7b\n\n\x7d"
    ∧ (buildBatch uuidGen 0 []).2 = []
    ∧ (errorFromGitHubResponse resp.status resp.headers = .ok →
        (retrieveObjectContents uuidGen [] resp).result = .ok [])
    ∧ (∀ e, errorFromGitHubResponse resp.status resp.headers = .err e →
        (retrieveObjectContents uuidGen [] resp).result = .err e)
    ∧ (errorFromGitHubResponse resp.status resp.headers = .fatal →
        (retrieveObjectContents uuidGen [] resp).result = .exited 1) := by
  refine ⟨rfl, rfl, ?_, ?_, ?_⟩
  · intro h
    simp [retrieveObjectContents, buildBatch, h]
  · intro e h
    simp [retrieveObjectContents, h]
  · intro h
    simp [retrieveObjectContents, h]

/-- Witness for C7: a successful and a 401 graphql response to the
zero-fragment batch request. -/
theorem retrieveObjectContents_emptyItems_witness :
    (retrieveObjectContents wGen [] wGraphqlOk).requestQuery = "query \x7b\n\n\x7d"
    ∧ (retrieveObjectContents wGen [] wGraphqlOk).result = .ok []
    ∧ (retrieveObjectContents wGen [] wGraphql401).result = .err .unauthorized :=
  ⟨(retrieveObjectContents_emptyItems wGen wGraphqlOk).1,
   (retrieveObjectContents_emptyItems wGen wGraphqlOk).2.2.1 (by decide),
   (retrieveObjectContents_emptyItems wGen wGraphql401).2.2.2.1 .unauthorized (by decide)⟩

/-- C8: any HTTP response whose content-type does not indicate JSON makes
the program terminate fatally (`process.exit(1)`) — in the search call, the
content batch call, and hence the whole page sync — instead of producing a
typed error result; and the typed error variants are only `unauthorized`
and `rate-limited`, so no variant exists for this condition. -/
theorem nonJsonContentType_fatal (status : Nat) (headers : List (String × String))
    (hct : contentTypeIsJson headers = false) :
    errorFromGitHubResponse status headers = .fatal
    ∧ (∀ body : CodeSearchResponse,
        codeSearch { status := status, headers := headers, body := body } = .exited 1)
    ∧ (∀ (g : Nat → String) (items : List SearchResultItem) (body : GraphQLData),
        (retrieveObjectContents g items
          { status := status, headers := headers, body := body }).result = .exited 1)
    ∧ (∀ (opts : SyncSearchPageOpts) (env : SyncEnv),
        env.searchResp.status = status → env.searchResp.headers = headers →
        (syncSearchPage opts env).result = .exited 1)
    ∧ (∀ e : SyncSearchPageError, errorFromGitHubResponse status headers ≠ .err e)
    ∧ (∀ e : SyncSearchPageError,
        e = .unauthorized ∨ ∃ r : Option JSDate, e = .rateLimited r) := by
  have hf : errorFromGitHubResponse status headers = .fatal := by
    simp [errorFromGitHubResponse, hct]
  refine ⟨hf, ?_, ?_, ?_, ?_, ?_⟩
  · intro body
    simp [codeSearch, hf]
  · intro g items body
    simp [retrieveObjectContents, hf]
  · intro opts env h1 h2
    have hcs : codeSearch env.searchResp = .exited 1 := by
      simp [codeSearch, h1, h2, hf]
    simp [syncSearchPage, hcs]
  · intro e
    rw [hf]
    simp
  · intro e
    cases e with
    | unauthorized => exact Or.inl rfl
    | rateLimited r => exact Or.inr ⟨r, rfl⟩

/-- Witness for C8 at a `text/html` 200 response. -/
theorem nonJsonContentType_fatal_witness :
    errorFromGitHubResponse 200 wHtmlHeaders = .fatal
    ∧ (∀ body : CodeSearchResponse,
        codeSearch { status := 200, headers := wHtmlHeaders, body := body } = .exited 1)
    ∧ (∀ (g : Nat → String) (items : List SearchResultItem) (body : GraphQLData),
        (retrieveObjectContents g items
          { status := 200, headers := wHtmlHeaders, body := body }).result = .exited 1)
    ∧ (∀ (opts : SyncSearchPageOpts) (env : SyncEnv),
        env.searchResp.status = 200 → env.searchResp.headers = wHtmlHeaders →
        (syncSearchPage opts env).result = .exited 1)
    ∧ (∀ e : SyncSearchPageError, errorFromGitHubResponse 200 wHtmlHeaders ≠ .err e)
    ∧ (∀ e : SyncSearchPageError,
        e = .unauthorized ∨ ∃ r : Option JSDate, e = .rateLimited r) :=
  nonJsonContentType_fatal 200 wHtmlHeaders (by decide)

/-- Counterexample to C9 as stated: with the explicit page number 0
supplied, the URL is left untouched — JS `if (syncOpts.page)` is falsy at 0
— so its page parameter stays "1" instead of becoming "0". -/
theorem requestURL_pageZero_cex :
    cexOptsPageZero.page = some 0
    ∧ requestURLOf cexOptsPageZero = cexOptsPageZero.url
    ∧ getParam (requestURLOf cexOptsPageZero) "page" = some "1"
    ∧ (some "1" : Option String) ≠ some "0" :=
  ⟨by decide, by decide, by decide, by decide⟩

/-- C9 (amended): the URL `syncSearchPage` requests is `requestURLOf opts`:
when a nonzero page number `p` is supplied the URL's page parameter is set
to `'' + p` with every other parameter unchanged; when no page — or the
falsy page 0 — is supplied the URL is left unchanged and page 1 is used as
the current page. -/
theorem syncSearchPage_requestURL (opts : SyncSearchPageOpts) (env : SyncEnv) :
    (syncSearchPage opts env).requestURL = requestURLOf opts
    ∧ (opts.page = none → requestURLOf opts = opts.url ∧ effectivePage opts.page = 1)
    ∧ (opts.page = some 0 → requestURLOf opts = opts.url ∧ effectivePage opts.page = 1)
    ∧ (∀ p : Int, opts.page = some p → p ≠ 0 →
        getParam (requestURLOf opts) "page" = some (toString p)
        ∧ (∀ k, k ≠ "page" → getParam (requestURLOf opts) k = getParam opts.url k)
        ∧ effectivePage opts.page = p) := by
  refine ⟨?_, ?_, ?_, ?_⟩
  · rcases hcs : codeSearch env.searchResp with c | e | sr
    · simp [syncSearchPage, hcs]
    · simp [syncSearchPage, hcs]
    · rcases hro : (retrieveObjectContents env.uuidGen sr.items env.graphqlResp).result
        with c | e | contents <;> simp [syncSearchPage, hcs, hro]
  · intro hp
    simp [requestURLOf, effectivePage, hp]
  · intro hp
    simp [requestURLOf, effectivePage, hp]
  · intro p hp hpz
    have hq : requestURLOf opts = setParam opts.url "page" (toString p) := by
      simp [requestURLOf, hp, hpz]
    refine ⟨?_, ?_, ?_⟩
    · rw [hq, getParam_setParam]
    · intro k hk
      rw [hq, getParam_setParam_ne opts.url "page" (toString p) k hk]
    · simp [effectivePage, hp, hpz]

/-- Witness for C9 (amended) at supplied page 2 and at no supplied page. -/
theorem syncSearchPage_requestURL_witness :
    getParam (requestURLOf wOptsPage2) "page" = some (toString (2 : Int))
    ∧ requestURLOf wOpts = wOpts.url
    ∧ (syncSearchPage wOptsPage2 wEnvOk).requestURL = requestURLOf wOptsPage2 :=
  ⟨((syncSearchPage_requestURL wOptsPage2 wEnvOk).2.2.2 2 (by decide) (by decide)).1,
   ((syncSearchPage_requestURL wOpts wEnvOk).2.1 (by decide)).1,
   (syncSearchPage_requestURL wOptsPage2 wEnvOk).1⟩

/-- C10: a blob whose text is the empty string is reported as null content —
JS `object?.text || null` coerces the empty string to null — and null
content never produces a file: each loop iteration of the writer yields its
write through `writeForIndex`, which is none on null content. -/
theorem emptyBlobText_nullContent (uuidGen : Nat → String)
    (items : List SearchResultItem) (resp : HttpResponse GraphQLData)
    (contents : List (Option String)) (i : Nat)
    (h : (retrieveObjectContents uuidGen items resp).result = .ok contents)
    (hi : i < items.length)
    (hempty : resp.body (qKey uuidGen i) = { object := some { text := some "" } }) :
    contents.getD i none = none
    ∧ (∀ item : SearchResultItem, writeForIndex item none = none)
    ∧ (∀ (its : List SearchResultItem) (cs : List (Option String)),
        syncToOutdir its cs = (its.zip cs).filterMap (fun p => writeForIndex p.1 p.2)) := by
  refine ⟨?_, fun item => rfl, syncToOutdir_eq_filterMap⟩
  rw [retrieveObjectContents_getD uuidGen items resp contents i h hi, hempty]
  simp [extractText]

/-- Witness for C10 at one item whose key resolves to a blob with empty
text: the fetcher returns `[none]` and the writer writes nothing. -/
theorem emptyBlobText_nullContent_witness :
    ([none] : List (Option String)).getD 0 none = none
    ∧ (∀ item : SearchResultItem, writeForIndex item none = none)
    ∧ (∀ (its : List SearchResultItem) (cs : List (Option String)),
        syncToOutdir its cs = (its.zip cs).filterMap (fun p => writeForIndex p.1 p.2)) :=
  emptyBlobText_nullContent wGen [wItem] wGraphqlEmptyText [none] 0
    (by decide) (by decide) (by decide)

end Poultry
